import Mathlib

/-!
Verification of the `is-same` crate (`src/is-same/src/lib.rs`) and its derive
facility (`src/is-same-derive/src/lib.rs`) against the natural-language
specification, via a shallow embedding.

Modelling conventions:
* A Rust `f32`/`f64` value is its raw bit pattern (`to_bits` in the source is a
  raw transmutation to `u32`/`u64`), modelled as a `Fin (2^32)` / `Fin (2^64)`.
* `Rc<T>` / `Arc<T>` handles are modelled as (allocation address, pointee):
  `Rc::ptr_eq` compares the addresses of the two shared allocations; `Rc::new`
  returns a handle to a fresh allocation (distinct from every live one, modelled
  by an allocator counter), and `clone` copies the address.
* `Vec<T>` is modelled as (buffer address, element list); `as_ptr` returns the
  buffer address.  For a zero-sized element type such as `()`, the real `Vec`
  never allocates and `as_ptr` always returns the dangling pointer
  `NonNull::dangling()`, whose address is `align_of::<T>()` (= 1 for `()`), so
  every `Vec<()>` value has buffer address 1 regardless of its length.
* `BTreeMap` / `BTreeSet` are modelled by their iteration sequences (entries in
  ascending key order); `HashMap` / `HashSet` by entry lists with pairwise
  `==`-distinct keys, with `get` modelled by `List.lookup`.
* Rust `PartialEq`'s `==` on keys is modelled by `BEq`; the trait method
  `is_same` of each `impl` block is modelled by the `IsSame` class below, whose
  `is_not_same` carries the source's default body and is overridden nowhere.
-/

/-- Bit-pattern model of Rust `f32`: the value of `f32::to_bits`. -/
structure F32 where
  bits : Fin 4294967296
deriving DecidableEq

/-- Bit-pattern model of Rust `f64`: the value of `f64::to_bits`. -/
structure F64 where
  bits : Fin 18446744073709551616
deriving DecidableEq

/-- `f32::to_bits` (raw transmutation to `u32`). -/
def F32.to_bits (x : F32) : Fin 4294967296 := x.bits

/-- `f64::to_bits` (raw transmutation to `u64`). -/
def F64.to_bits (x : F64) : Fin 18446744073709551616 := x.bits

/-- `impl IsSame for f32` (lib.rs:162-166): `self.to_bits() == other.to_bits()`. -/
def f32_is_same (a b : F32) : Bool :=
  a.to_bits == b.to_bits

/-- `impl IsSame for f64` (lib.rs:168-172): `self.to_bits() == other.to_bits()`. -/
def f64_is_same (a b : F64) : Bool :=
  a.to_bits == b.to_bits

/-- IEEE-754 single: exponent field all ones, mantissa nonzero. -/
def F32.isNaN (x : F32) : Bool :=
  decide ((x.bits.val / 8388608) % 256 = 255) && decide (x.bits.val % 8388608 ≠ 0)

/-- IEEE-754 double: exponent field all ones, mantissa nonzero. -/
def F64.isNaN (x : F64) : Bool :=
  decide ((x.bits.val / 4503599627370496) % 2048 = 2047) && decide (x.bits.val % 4503599627370496 ≠ 0)

/-- `+0.0f32`: bit pattern `0x0000_0000`. -/
def f32PosZero : F32 := ⟨⟨0, by norm_num⟩⟩

/-- `-0.0f32`: bit pattern `0x8000_0000`. -/
def f32NegZero : F32 := ⟨⟨2147483648, by norm_num⟩⟩

/-- `f32::INFINITY`: bit pattern `0x7F80_0000`. -/
def f32PosInf : F32 := ⟨⟨2139095040, by norm_num⟩⟩

/-- `f32::NEG_INFINITY`: bit pattern `0xFF80_0000`. -/
def f32NegInf : F32 := ⟨⟨4286578688, by norm_num⟩⟩

/-- `f32::NAN`: the quiet NaN bit pattern `0x7FC0_0000`. -/
def f32QuietNaN : F32 := ⟨⟨2143289344, by norm_num⟩⟩

/-- A differently-encoded NaN: bit pattern `0x7FC0_0001`. -/
def f32OtherNaN : F32 := ⟨⟨2143289345, by norm_num⟩⟩

/-- `+0.0f64`: bit pattern `0x0000_0000_0000_0000`. -/
def f64PosZero : F64 := ⟨⟨0, by norm_num⟩⟩

/-- `-0.0f64`: bit pattern `0x8000_0000_0000_0000`. -/
def f64NegZero : F64 := ⟨⟨9223372036854775808, by norm_num⟩⟩

/-- `f64::INFINITY`: bit pattern `0x7FF0_0000_0000_0000`. -/
def f64PosInf : F64 := ⟨⟨9218868437227405312, by norm_num⟩⟩

/-- `f64::NEG_INFINITY`: bit pattern `0xFFF0_0000_0000_0000`. -/
def f64NegInf : F64 := ⟨⟨18442240474082181120, by norm_num⟩⟩

/-- `f64::NAN`: the quiet NaN bit pattern `0x7FF8_0000_0000_0000`. -/
def f64QuietNaN : F64 := ⟨⟨9221120237041090560, by norm_num⟩⟩

/-- A differently-encoded NaN: bit pattern `0x7FF8_0000_0000_0001`. -/
def f64OtherNaN : F64 := ⟨⟨9221120237041090561, by norm_num⟩⟩

/-- The `IsSame` trait (lib.rs:35-46).  `is_not_same` carries the default body
`!self.is_same(other)`; no `impl` in the source overrides it, and accordingly
no instance below overrides it. -/
class IsSame (α : Type u) where
  is_same : α → α → Bool
  is_not_same : α → α → Bool := fun a b => !(is_same a b)

export IsSame (is_same is_not_same)

instance : IsSame F32 where
  is_same := f32_is_same

instance : IsSame F64 where
  is_same := f64_is_same

/-- The body of `simple_impl!` (lib.rs:241-249): `self == other`, Rust's
`PartialEq` equality, which on every type the macro is applied to is plain
value equality. -/
def simple_is_same {α : Type u} [DecidableEq α] (a b : α) : Bool :=
  decide (a = b)

/-- Rust `u8` as its value. -/
abbrev U8 := Fin 256

/-- Rust `u16` as its value. -/
abbrev U16 := Fin 65536

/-- Rust `u32` as its value. -/
abbrev U32 := Fin 4294967296

/-- Rust `u64` as its value. -/
abbrev U64 := Fin 18446744073709551616

/-- Rust `usize` (64-bit target) as its value; same carrier as `u64`, so it
shares `u64`'s instance (the source gives it a textually identical one). -/
abbrev Usize := U64

/-- Rust `u128` as its value. -/
abbrev U128 := Fin 340282366920938463463374607431768211456

/-- Rust `i8` as its value. -/
abbrev I8 := {z : Int // -128 ≤ z ∧ z < 128}

/-- Rust `i16` as its value. -/
abbrev I16 := {z : Int // -32768 ≤ z ∧ z < 32768}

/-- Rust `i32` as its value. -/
abbrev I32 := {z : Int // -2147483648 ≤ z ∧ z < 2147483648}

/-- Rust `i64` as its value. -/
abbrev I64 := {z : Int // -9223372036854775808 ≤ z ∧ z < 9223372036854775808}

/-- Rust `isize` (64-bit target) as its value; same carrier as `i64`, so it
shares `i64`'s instance (the source gives it a textually identical one). -/
abbrev Isize := I64

/-- Rust `i128` as its value. -/
abbrev I128 := {z : Int // -170141183460469231731687303715884105728 ≤ z ∧ z < 170141183460469231731687303715884105728}

/-- Rust `str` (the unsized string slice), kept distinct from `String`. -/
structure StrM where
  chars : String
deriving DecidableEq

/-- A path value: `Path`/`PathBuf` compare as their normalized path strings. -/
structure PathM where
  path : String
deriving DecidableEq

/-- `std::any::TypeId`: a token that two types share iff they are the same
type; only its equality is observable. -/
structure TypeIdM where
  token : Nat
deriving DecidableEq

instance : IsSame U8 where is_same := simple_is_same
instance : IsSame U16 where is_same := simple_is_same
instance : IsSame U32 where is_same := simple_is_same
instance : IsSame U64 where is_same := simple_is_same
instance : IsSame U128 where is_same := simple_is_same
instance : IsSame I8 where is_same := simple_is_same
instance : IsSame I16 where is_same := simple_is_same
instance : IsSame I32 where is_same := simple_is_same
instance : IsSame I64 where is_same := simple_is_same
instance : IsSame I128 where is_same := simple_is_same
instance : IsSame Bool where is_same := simple_is_same
instance : IsSame Char where is_same := simple_is_same
instance : IsSame Unit where is_same := simple_is_same
instance : IsSame String where is_same := simple_is_same
instance : IsSame StrM where is_same := simple_is_same
instance : IsSame TypeIdM where is_same := simple_is_same
instance : IsSame PathM where is_same := simple_is_same

/-- A model `Rc<T>` handle: the address of its shared allocation plus the
pointee stored there.  Two handles clone-related to one another share the
address; `Rc::new` always creates a fresh allocation. -/
structure RcHandle (α : Type u) where
  alloc : Nat
  value : α

/-- `impl IsSame for Rc<T>` (lib.rs:48-52): `Rc::ptr_eq(self, other)`, which
compares the addresses of the two shared allocations. -/
def rc_is_same (a b : RcHandle α) : Bool :=
  a.alloc == b.alloc

/-- `Rc::new` against an allocator whose counter `c` models "addresses `≥ c`
are unused": the new allocation gets the next fresh address. -/
def rc_new (c : Nat) (v : α) : RcHandle α × Nat :=
  (⟨c, v⟩, c + 1)

/-- `Rc::clone`: copies the handle, sharing the allocation. -/
def rc_clone (r : RcHandle α) : RcHandle α :=
  r

/-- A model `Arc<T>` handle, exactly as `RcHandle`. -/
structure ArcHandle (α : Type u) where
  alloc : Nat
  value : α

/-- `impl IsSame for Arc<T>` (lib.rs:54-58): `Arc::ptr_eq(self, other)`. -/
def arc_is_same (a b : ArcHandle α) : Bool :=
  a.alloc == b.alloc

/-- `Arc::new`, as `rc_new`. -/
def arc_new (c : Nat) (v : α) : ArcHandle α × Nat :=
  (⟨c, v⟩, c + 1)

/-- `Arc::clone`. -/
def arc_clone (r : ArcHandle α) : ArcHandle α :=
  r

instance : IsSame (RcHandle α) where is_same := rc_is_same
instance : IsSame (ArcHandle α) where is_same := arc_is_same

/-- A model `Vec<T>`: the address its `as_ptr` returns plus its elements.  For
a zero-sized `T` the real `Vec` never allocates: `as_ptr` is the dangling
well-aligned pointer, whose address is `align_of::<T>()` for every value of
the type, e.g. always 1 for `Vec<()>`. -/
structure VecM (α : Type u) where
  addr : Nat
  data : List α

/-- `impl IsSame for Vec<T>` (lib.rs:60-75): `as_ptr` fast path, then length
check, then `self.iter().zip(other.iter()).all(|(l, r)| l.is_same(r))`. -/
def vec_is_same [IsSame α] (a b : VecM α) : Bool :=
  if a.addr == b.addr then true
  else if a.data.length != b.data.length then false
  else (a.data.zip b.data).all fun p => is_same p.1 p.2

instance [IsSame α] : IsSame (VecM α) where is_same := vec_is_same

/-- The element loop of `impl IsSame for [T]` (lib.rs:205-221): for each index
in order, return `false` at the first `is_not_same` pair. -/
def slice_elems_same [IsSame α] : List α → List α → Bool
  | x :: t1, y :: t2 => if is_not_same x y then false else slice_elems_same t1 t2
  | _, _ => true

/-- `impl IsSame for [T]` (lib.rs:205-221): length check, then the index loop. -/
def slice_is_same [IsSame α] (a b : List α) : Bool :=
  if a.length != b.length then false else slice_elems_same a b

instance [IsSame α] : IsSame (List α) where is_same := slice_is_same

/-- A model `&'a T`: the referent's address plus the referent. -/
structure RefM (α : Type u) where
  addr : Nat
  value : α

/-- `impl IsSame for &'a T` (lib.rs:174-185): pointer fast path, then recurse
into the referenced value's own `is_same`. -/
def ref_is_same [IsSame α] (a b : RefM α) : Bool :=
  if a.addr == b.addr then true else is_same a.value b.value

instance [IsSame α] : IsSame (RefM α) where is_same := ref_is_same

/-- A model `Cow<'a, T>`: borrowed or owned. -/
inductive CowM (α : Type u) where
  | borrowed (v : α)
  | owned (v : α)

/-- `Cow`'s deref: the underlying value. -/
def CowM.deref : CowM α → α
  | .borrowed v => v
  | .owned v => v

/-- `impl IsSame for Cow<'a, T>` (lib.rs:187-194):
`(**self).is_same(&**other)`. -/
def cow_is_same [IsSame α] (a b : CowM α) : Bool :=
  is_same a.deref b.deref

instance [IsSame α] : IsSame (CowM α) where is_same := cow_is_same

/-- A model `BTreeMap<Key, Value>`: its iteration sequence, i.e. its entries
in ascending key order (the order `BTreeMap::iter` yields them in). -/
structure BTreeMapM (κ : Type u) (α : Type v) where
  entries : List (κ × α)

/-- The lockstep loop of `impl IsSame for BTreeMap<Key, Value>`
(lib.rs:82-101): both iterators exhausted is same; two entries whose keys are
`==`-equal continue unless the values are `is_not_same`; every other pairing
returns not-same. -/
def btree_entries_same [BEq κ] [IsSame α] : List (κ × α) → List (κ × α) → Bool
  | [], [] => true
  | (k1, v1) :: t1, (k2, v2) :: t2 =>
    if k1 == k2 then
      if is_not_same v1 v2 then false else btree_entries_same t1 t2
    else false
  | _, _ => false

/-- `impl IsSame for BTreeMap<Key, Value>` (lib.rs:77-102). -/
def btreemap_is_same [BEq κ] [IsSame κ] [IsSame α] (m1 m2 : BTreeMapM κ α) : Bool :=
  btree_entries_same m1.entries m2.entries

instance [BEq κ] [IsSame κ] [IsSame α] : IsSame (BTreeMapM κ α) where
  is_same := btreemap_is_same

/-- A model `BTreeSet<Key>`: its ascending iteration sequence. -/
structure BTreeSetM (κ : Type u) where
  entries : List κ

/-- The lockstep loop of `impl IsSame for BTreeSet<Key>` (lib.rs:108-121). -/
def btreeset_entries_same [BEq κ] : List κ → List κ → Bool
  | [], [] => true
  | k1 :: t1, k2 :: t2 => if k1 == k2 then btreeset_entries_same t1 t2 else false
  | _, _ => false

/-- `impl IsSame for BTreeSet<Key>` (lib.rs:104-122). -/
def btreeset_is_same [BEq κ] [IsSame κ] (s1 s2 : BTreeSetM κ) : Bool :=
  btreeset_entries_same s1.entries s2.entries

instance [BEq κ] [IsSame κ] : IsSame (BTreeSetM κ) where
  is_same := btreeset_is_same

/-- A model `HashMap<Key, Value, State>`: its entries (in iteration order,
which is arbitrary), no two of which have `==`-equal keys (`Key: Eq`, so `==`
is an equivalence and the no-duplicate invariant holds in both directions). -/
structure HashMapM (κ : Type u) (α : Type v) [BEq κ] where
  entries : List (κ × α)
  nodupKeys : entries.Pairwise fun a b => (a.1 == b.1) = false ∧ (b.1 == a.1) = false

/-- `impl IsSame for HashMap<Key, Value, State>` (lib.rs:124-150): compare
sizes first; then for every entry of `self`, `other.get(key)` (modelled by
`List.lookup`, lookup by `==`-equal key) must find a value that is not
`is_not_same`. -/
def hashmap_is_same [BEq κ] [IsSame κ] [IsSame α] (m1 m2 : HashMapM κ α) : Bool :=
  if m1.entries.length != m2.entries.length then false
  else m1.entries.all fun kv =>
    match List.lookup kv.1 m2.entries with
    | some v => if is_not_same kv.2 v then false else true
    | none => false

instance [BEq κ] [IsSame κ] [IsSame α] : IsSame (HashMapM κ α) where
  is_same := hashmap_is_same

/-- A model `HashSet<Key, State>`: its keys, no two `==`-equal. -/
structure HashSetM (κ : Type u) [BEq κ] where
  entries : List κ
  nodup : entries.Pairwise fun a b => (a == b) = false ∧ (b == a) = false

/-- `impl IsSame for HashSet<Key, State>` (lib.rs:152-160) delegates to
`self == other`, std's `PartialEq for HashSet`: equal sizes and every key of
`self` contained in `other`. -/
def hashset_is_same [BEq κ] [IsSame κ] (s1 s2 : HashSetM κ) : Bool :=
  s1.entries.length == s2.entries.length && s1.entries.all fun k => s2.entries.contains k

instance [BEq κ] [IsSame κ] : IsSame (HashSetM κ) where
  is_same := hashset_is_same

/-- `tuple_impl!` at arity 2 (lib.rs:271-293):
`left1.is_same(right1) && left2.is_same(right2)`.  The macro emits the same
conjunction pattern for each arity 1 through 8. -/
def tuple2_is_same [IsSame α] [IsSame β] (a b : α × β) : Bool :=
  is_same a.1 b.1 && is_same a.2 b.2

instance [IsSame α] [IsSame β] : IsSame (α × β) where
  is_same := tuple2_is_same

/-- A model fixed-size array `[T; n]`: a list of exactly `n` elements. -/
def ArrayN (α : Type u) (n : Nat) :=
  {l : List α // l.length = n}

/-- The loop of `array_impl!` (lib.rs:346-362) with an explicit count of the
element comparisons performed: `for i in 0..count`, return `false` at the
first `is_not_same` pair, `true` once the loop ends.  The two lists always
have the same length when this models `[T; n]`. -/
def array_cmp_count [IsSame α] : List α → List α → Bool × Nat
  | x :: t1, y :: t2 =>
    if is_not_same x y then (false, 1)
    else
      let p := array_cmp_count t1 t2
      (p.1, p.2 + 1)
  | _, _ => (true, 0)

/-- `impl IsSame for [T; $count]` generated by `array_impl!` (lib.rs:346-367)
for each size 0 through 32. -/
def array_is_same [IsSame α] (a b : ArrayN α n) : Bool :=
  (array_cmp_count a.val b.val).1

instance [IsSame α] : IsSame (ArrayN α n) where
  is_same := array_is_same

/-- A key type instantiating `Key: IsSame + Ord` whose own equality `==`
(deciding by `id` alone, as a hand-written `PartialEq`/`Ord` may) is coarser
than its `is_same` (which also inspects `gen`).  Used to check which of the
two relations pairs map keys. -/
structure KeyTok where
  id : Nat
  gen : Nat

instance : BEq KeyTok where
  beq a b := a.id == b.id

instance : IsSame KeyTok where
  is_same a b := a.id == b.id && a.gen == b.gen

/-- The field list of a `DeriveInput`'s struct data (`syn::Fields`):
named fields in declaration order, unnamed (positional) fields counted, or no
field list at all (a unit struct). -/
inductive FieldsM where
  | named (names : List String)
  | unnamed (count : Nat)
  | unit
deriving DecidableEq

/-- `syn::Data`: the shape of the type a derive is invoked on. -/
inductive DataM where
  | structData (fields : FieldsM)
  | enumData
  | unionData
deriving DecidableEq

/-- `syn::DeriveInput`: the derive target's name and shape. -/
structure DeriveInputM where
  ident : String
  data : DataM
deriving DecidableEq

/-- One operand access emitted by the derive: `self.#name`/`other.#name` for a
named field, `self.#index`/`other.#index` for a positional one. -/
inductive FieldRefM where
  | byName (name : String)
  | byIndex (index : Nat)
deriving DecidableEq

/-- The body the derive emits for `fn is_same`: either the token repetition
`#(#fields)&&*` — the `&&`-separated chain of the per-field
`::is_same::IsSame::is_same(&self.f, &other.f)` calls, in field order — or the
literal `true` emitted for `Fields::Unit`.  An `andChain []` records that the
repetition produced an empty token stream. -/
inductive GenBodyM where
  | andChain (refs : List FieldRefM)
  | litTrue
deriving DecidableEq

/-- Lines 16-40 of is-same-derive/src/lib.rs: the body generated for each
`syn::Fields` shape. -/
def fields_body : FieldsM → GenBodyM
  | .named ns => .andChain (ns.map FieldRefM.byName)
  | .unnamed n => .andChain ((List.range n).map FieldRefM.byIndex)
  | .unit => .litTrue

/-- What the derive invocation leaves the build with: generated tokens, or a
compile-time failure (the `panic!` aborts the macro and rustc reports the
panic message as an error, so the build cannot succeed). -/
inductive DeriveResultM where
  | ok (body : GenBodyM)
  | compileError (message : String)
deriving DecidableEq

/-- The message of the `panic!` at is-same-derive/src/lib.rs:50. -/
def derivePanicMessage : String :=
  "derive(IsSame) can only be used with struct items"

/-- `derive_is_same` (is-same-derive/src/lib.rs:10-52): for struct data, emit
`impl ::is_same::IsSame for #name` whose `is_same` body is `fields_body`; for
any other shape, panic with the fixed message. -/
def derive_is_same (input : DeriveInputM) : DeriveResultM :=
  match input.data with
  | .structData fields => .ok (fields_body fields)
  | _ => .compileError derivePanicMessage

/-- Evaluation of a nonempty `&&` chain `c1 && c2 && ... && cn`, where `f r`
is the value of the per-field call `r`: Rust's `&&` evaluates left to right
and stops at the first `false`.  Returns the chain's value and how many of
the per-field calls were evaluated. -/
def eval_and_chain (f : FieldRefM → Bool) : FieldRefM → List FieldRefM → Bool × Nat
  | r, [] => if f r then (true, 1) else (false, 1)
  | r, r2 :: t =>
    if f r then
      let p := eval_and_chain f r2 t
      (p.1, p.2 + 1)
    else (false, 1)

/-- Run a generated `is_same` body, given the value `f r` of each per-field
comparison: `litTrue` evaluates no field comparison; an empty `&&` chain is an
empty expression, which is not a compilable function body (`fn ... -> bool`
with an empty block is a type error), so it has no run-time behaviour at all. -/
def run_gen_body (f : FieldRefM → Bool) : GenBodyM → Option (Bool × Nat)
  | .litTrue => some (true, 0)
  | .andChain [] => none
  | .andChain (r :: t) => some (eval_and_chain f r t)

/-- The number of terms of a short-circuit `&&` chain with values `bs` that
get evaluated: everything up to and including the first `false`. -/
def evaluated_count : List Bool → Nat
  | [] => 0
  | b :: t => if b then evaluated_count t + 1 else 1

/-! ## Helper lemmas -/

theorem simple_is_same_refl {α : Type u} [DecidableEq α] (x : α) :
    simple_is_same x x = true := by
  simp [simple_is_same]

theorem f32_is_not_same_self (x : F32) : is_not_same x x = false := by
  show (!(f32_is_same x x)) = false
  simp [f32_is_same]

theorem u8_is_not_same_self (x : U8) : is_not_same x x = false := by
  show (!(simple_is_same x x)) = false
  simp [simple_is_same]

theorem slice_elems_same_refl {α : Type u} [IsSame α]
    (h : ∀ x : α, is_not_same x x = false) :
    ∀ l : List α, slice_elems_same l l = true
  | [] => rfl
  | x :: t => by
    rw [slice_elems_same, h x]
    simpa using slice_elems_same_refl h t

theorem btree_entries_same_refl {κ : Type u} {α : Type v} [BEq κ] [IsSame α]
    (hk : ∀ k : κ, (k == k) = true) (hv : ∀ v : α, is_not_same v v = false) :
    ∀ l : List (κ × α), btree_entries_same l l = true
  | [] => rfl
  | (k, v) :: t => by
    rw [btree_entries_same, if_pos (hk k), hv v]
    simpa using btree_entries_same_refl hk hv t

theorem btreeset_entries_same_refl {κ : Type u} [BEq κ]
    (hk : ∀ k : κ, (k == k) = true) :
    ∀ l : List κ, btreeset_entries_same l l = true
  | [] => rfl
  | k :: t => by
    rw [btreeset_entries_same, if_pos (hk k)]
    exact btreeset_entries_same_refl hk t

theorem lookup_self_of_nodup {κ : Type u} {α : Type v} [BEq κ]
    (hk : ∀ k : κ, (k == k) = true) :
    ∀ (l : List (κ × α)),
      l.Pairwise (fun a b => (a.1 == b.1) = false ∧ (b.1 == a.1) = false) →
      ∀ kv ∈ l, List.lookup kv.1 l = some kv.2
  | [], _, _, h => absurd h (List.not_mem_nil _)
  | (k, v) :: t, hp, kv, hmem => by
    rcases List.mem_cons.mp hmem with heq | htail
    · subst heq
      simp [List.lookup, hk k]
    · have hkk : (kv.1 == k) = false :=
        ((List.pairwise_cons.mp hp).1 kv htail).2
      rw [List.lookup, hkk]
      exact lookup_self_of_nodup hk t (List.pairwise_cons.mp hp).2 kv htail

theorem array_cmp_count_refl {α : Type u} [IsSame α]
    (h : ∀ x : α, is_not_same x x = false) :
    ∀ l : List α, array_cmp_count l l = (true, l.length)
  | [] => rfl
  | x :: t => by
    rw [array_cmp_count, h x]
    simp [array_cmp_count_refl h t]

/-! ## Claim theorems -/

/-- C1: for every pair of `f32` values and every pair of `f64` values,
`is_same` is true iff the raw bit patterns are equal; in particular
`is_same(+0.0, -0.0)` is false, `is_same` of two bit-identical NaNs is true,
`is_same` of two differently-encoded NaNs is false, and
`is_same(+inf, -inf)` is false, for both widths. -/
theorem c1_float_bit_pattern :
    (∀ x y : F32, f32_is_same x y = true ↔ x.to_bits = y.to_bits)
    ∧ f32_is_same f32PosZero f32NegZero = false
    ∧ (F32.isNaN f32QuietNaN = true ∧ f32_is_same f32QuietNaN f32QuietNaN = true)
    ∧ (F32.isNaN f32OtherNaN = true ∧ f32QuietNaN.to_bits ≠ f32OtherNaN.to_bits
        ∧ f32_is_same f32QuietNaN f32OtherNaN = false)
    ∧ f32_is_same f32PosInf f32NegInf = false
    ∧ (∀ x y : F64, f64_is_same x y = true ↔ x.to_bits = y.to_bits)
    ∧ f64_is_same f64PosZero f64NegZero = false
    ∧ (F64.isNaN f64QuietNaN = true ∧ f64_is_same f64QuietNaN f64QuietNaN = true)
    ∧ (F64.isNaN f64OtherNaN = true ∧ f64QuietNaN.to_bits ≠ f64OtherNaN.to_bits
        ∧ f64_is_same f64QuietNaN f64OtherNaN = false)
    ∧ f64_is_same f64PosInf f64NegInf = false := by
  refine ⟨fun x y => by simp [f32_is_same], ?_, ?_, ?_, ?_,
    fun x y => by simp [f64_is_same], ?_, ?_, ?_, ?_⟩ <;> decide

/-- C2: `is_same` on `Rc<T>`/`Arc<T>` is true iff the two handles refer to
the same backing allocation; clones of one handle are same, two independently
constructed handles are not-same whatever they hold (in particular when they
hold the same content), and the result never depends on the pointees. -/
theorem c2_shared_handle_identity :
    (∀ (α : Type u) (a b : RcHandle α), rc_is_same a b = true ↔ a.alloc = b.alloc)
    ∧ (∀ (α : Type u) (r : RcHandle α), rc_is_same r (rc_clone r) = true)
    ∧ (∀ (α : Type u) (c : Nat) (v w : α),
        rc_is_same (rc_new c v).1 (rc_new (rc_new c v).2 w).1 = false)
    ∧ (∀ (α : Type u) (n m : Nat) (v w v' w' : α),
        rc_is_same ⟨n, v⟩ ⟨m, w⟩ = rc_is_same ⟨n, v'⟩ ⟨m, w'⟩)
    ∧ (∀ (α : Type u) (a b : ArcHandle α), arc_is_same a b = true ↔ a.alloc = b.alloc)
    ∧ (∀ (α : Type u) (r : ArcHandle α), arc_is_same r (arc_clone r) = true)
    ∧ (∀ (α : Type u) (c : Nat) (v w : α),
        arc_is_same (arc_new c v).1 (arc_new (arc_new c v).2 w).1 = false)
    ∧ (∀ (α : Type u) (n m : Nat) (v w v' w' : α),
        arc_is_same ⟨n, v⟩ ⟨m, w⟩ = arc_is_same ⟨n, v'⟩ ⟨m, w'⟩) := by
  refine ⟨fun α a b => by simp [rc_is_same],
    fun α r => by simp [rc_is_same, rc_clone],
    fun α c v w => by simp [rc_is_same, rc_new],
    fun α n m v w v' w' => rfl,
    fun α a b => by simp [arc_is_same],
    fun α r => by simp [arc_is_same, arc_clone],
    fun α c v w => by simp [arc_is_same, arc_new],
    fun α n m v w v' w' => rfl⟩

/-- C3: for every modelled supported type, `is_not_same` equals the logical
negation of `is_same`: every instance keeps the trait's default body
(lib.rs:42-45) and none overrides it, so each conjunct holds definitionally. -/
theorem c3_negation_law :
    (∀ a b : F32, is_not_same a b = !(is_same a b))
    ∧ (∀ a b : F64, is_not_same a b = !(is_same a b))
    ∧ (∀ a b : U8, is_not_same a b = !(is_same a b))
    ∧ (∀ a b : U16, is_not_same a b = !(is_same a b))
    ∧ (∀ a b : U32, is_not_same a b = !(is_same a b))
    ∧ (∀ a b : U64, is_not_same a b = !(is_same a b))
    ∧ (∀ a b : U128, is_not_same a b = !(is_same a b))
    ∧ (∀ a b : I8, is_not_same a b = !(is_same a b))
    ∧ (∀ a b : I16, is_not_same a b = !(is_same a b))
    ∧ (∀ a b : I32, is_not_same a b = !(is_same a b))
    ∧ (∀ a b : I64, is_not_same a b = !(is_same a b))
    ∧ (∀ a b : I128, is_not_same a b = !(is_same a b))
    ∧ (∀ a b : Bool, is_not_same a b = !(is_same a b))
    ∧ (∀ a b : Char, is_not_same a b = !(is_same a b))
    ∧ (∀ a b : Unit, is_not_same a b = !(is_same a b))
    ∧ (∀ a b : String, is_not_same a b = !(is_same a b))
    ∧ (∀ a b : StrM, is_not_same a b = !(is_same a b))
    ∧ (∀ a b : TypeIdM, is_not_same a b = !(is_same a b))
    ∧ (∀ a b : PathM, is_not_same a b = !(is_same a b))
    ∧ (∀ a b : KeyTok, is_not_same a b = !(is_same a b))
    ∧ (∀ (α : Type u) (a b : RcHandle α), is_not_same a b = !(is_same a b))
    ∧ (∀ (α : Type u) (a b : ArcHandle α), is_not_same a b = !(is_same a b))
    ∧ (∀ (α : Type u) [IsSame α] (a b : VecM α), is_not_same a b = !(is_same a b))
    ∧ (∀ (α : Type u) [IsSame α] (a b : List α), is_not_same a b = !(is_same a b))
    ∧ (∀ (α : Type u) [IsSame α] (a b : RefM α), is_not_same a b = !(is_same a b))
    ∧ (∀ (α : Type u) [IsSame α] (a b : CowM α), is_not_same a b = !(is_same a b))
    ∧ (∀ (κ : Type u) (α : Type v) [BEq κ] [IsSame κ] [IsSame α]
        (a b : BTreeMapM κ α), is_not_same a b = !(is_same a b))
    ∧ (∀ (κ : Type u) [BEq κ] [IsSame κ] (a b : BTreeSetM κ),
        is_not_same a b = !(is_same a b))
    ∧ (∀ (κ : Type u) (α : Type v) [BEq κ] [IsSame κ] [IsSame α]
        (a b : HashMapM κ α), is_not_same a b = !(is_same a b))
    ∧ (∀ (κ : Type u) [BEq κ] [IsSame κ] (a b : HashSetM κ),
        is_not_same a b = !(is_same a b))
    ∧ (∀ (α : Type u) (β : Type v) [IsSame α] [IsSame β] (a b : α × β),
        is_not_same a b = !(is_same a b))
    ∧ (∀ (α : Type u) (n : Nat) [IsSame α] (a b : ArrayN α n),
        is_not_same a b = !(is_same a b)) := by
  refine ⟨?_, ?_, ?_, ?_, ?_, ?_, ?_, ?_, ?_, ?_, ?_, ?_, ?_, ?_, ?_, ?_, ?_,
    ?_, ?_, ?_, ?_, ?_, ?_, ?_, ?_, ?_, ?_, ?_, ?_, ?_, ?_, ?_⟩ <;>
    intros <;> rfl

/-- C4: `is_same` is reflexive for every modelled supported type, including
NaN floating-point bit patterns (quiet NaN compared to an exact copy of
itself is same). -/
theorem c4_reflexivity :
    (∀ x : F32, is_same x x = true)
    ∧ (F32.isNaN f32QuietNaN = true ∧ is_same f32QuietNaN f32QuietNaN = true)
    ∧ (∀ x : F64, is_same x x = true)
    ∧ (F64.isNaN f64QuietNaN = true ∧ is_same f64QuietNaN f64QuietNaN = true)
    ∧ (∀ x : U8, is_same x x = true)
    ∧ (∀ x : U16, is_same x x = true)
    ∧ (∀ x : U32, is_same x x = true)
    ∧ (∀ x : U64, is_same x x = true)
    ∧ (∀ x : U128, is_same x x = true)
    ∧ (∀ x : I8, is_same x x = true)
    ∧ (∀ x : I16, is_same x x = true)
    ∧ (∀ x : I32, is_same x x = true)
    ∧ (∀ x : I64, is_same x x = true)
    ∧ (∀ x : I128, is_same x x = true)
    ∧ (∀ x : Bool, is_same x x = true)
    ∧ (∀ x : Char, is_same x x = true)
    ∧ (∀ x : Unit, is_same x x = true)
    ∧ (∀ x : String, is_same x x = true)
    ∧ (∀ x : StrM, is_same x x = true)
    ∧ (∀ x : TypeIdM, is_same x x = true)
    ∧ (∀ x : PathM, is_same x x = true)
    ∧ (∀ x : KeyTok, is_same x x = true)
    ∧ (∀ (α : Type u) (r : RcHandle α), is_same r r = true)
    ∧ (∀ (α : Type u) (r : ArcHandle α), is_same r r = true)
    ∧ (∀ (α : Type u) [IsSame α] (v : VecM α), is_same v v = true)
    ∧ (∀ l : List F32, is_same l l = true)
    ∧ (∀ (α : Type u) [IsSame α] (r : RefM α), is_same r r = true)
    ∧ (∀ c : CowM String, is_same c c = true)
    ∧ (∀ m : BTreeMapM U8 F32, is_same m m = true)
    ∧ (∀ s : BTreeSetM U8, is_same s s = true)
    ∧ (∀ m : HashMapM U8 F32, is_same m m = true)
    ∧ (∀ s : HashSetM U8, is_same s s = true)
    ∧ (∀ p : F32 × U8, is_same p p = true)
    ∧ (∀ (n : Nat) (a : ArrayN F32 n), is_same a a = true) := by
  refine ⟨fun x => ?_, ⟨by decide, by decide⟩, fun x => ?_, ⟨by decide, by decide⟩,
    fun x => simple_is_same_refl x, fun x => simple_is_same_refl x,
    fun x => simple_is_same_refl x, fun x => simple_is_same_refl x,
    fun x => simple_is_same_refl x, fun x => simple_is_same_refl x,
    fun x => simple_is_same_refl x, fun x => simple_is_same_refl x,
    fun x => simple_is_same_refl x, fun x => simple_is_same_refl x,
    fun x => simple_is_same_refl x, fun x => simple_is_same_refl x,
    fun x => simple_is_same_refl x, fun x => simple_is_same_refl x,
    fun x => simple_is_same_refl x, fun x => simple_is_same_refl x,
    fun x => simple_is_same_refl x, fun x => ?_,
    fun α r => ?_, fun α r => ?_, fun α _ v => ?_, fun l => ?_,
    fun α _ r => ?_, fun c => simple_is_same_refl c.deref,
    fun m => ?_, fun s => ?_, fun m => ?_, fun s => ?_, fun p => ?_,
    fun n a => ?_⟩
  · show f32_is_same x x = true
    simp [f32_is_same]
  · show f64_is_same x x = true
    simp [f64_is_same]
  · show (x.id == x.id && x.gen == x.gen) = true
    simp
  · show rc_is_same r r = true
    simp [rc_is_same]
  · show arc_is_same r r = true
    simp [arc_is_same]
  · show vec_is_same v v = true
    simp [vec_is_same]
  · show slice_is_same l l = true
    simp [slice_is_same, slice_elems_same_refl f32_is_not_same_self l]
  · show ref_is_same r r = true
    simp [ref_is_same]
  · show btreemap_is_same m m = true
    exact btree_entries_same_refl (fun k => beq_self_eq_true k)
      f32_is_not_same_self m.entries
  · show btreeset_is_same s s = true
    exact btreeset_entries_same_refl (fun k => beq_self_eq_true k) s.entries
  · show hashmap_is_same m m = true
    rw [hashmap_is_same]
    simp only [bne_self_eq_false, Bool.false_eq_true, if_false, List.all_eq_true]
    intro kv hmem
    rw [lookup_self_of_nodup (fun k => beq_self_eq_true k) m.entries m.nodupKeys kv hmem]
    show (if is_not_same kv.2 kv.2 then false else true) = true
    simp [f32_is_not_same_self]
  · show hashset_is_same s s = true
    simp only [hashset_is_same, beq_self_eq_true, Bool.true_and, List.all_eq_true]
    intro k hk
    simpa using hk
  · show (f32_is_same p.1 p.1 && simple_is_same p.2 p.2) = true
    simp [f32_is_same, simple_is_same]
  · show (array_cmp_count a.val a.val).1 = true
    rw [array_cmp_count_refl f32_is_not_same_self a.val]

theorem f32_not_same_false_iff (a b : F32) :
    is_not_same a b = false ↔ is_same a b = true := by
  show (!(f32_is_same a b)) = false ↔ f32_is_same a b = true
  simp

theorem btree_entries_same_iff {κ : Type u} {α : Type v} [BEq κ] [IsSame α] :
    ∀ l1 l2 : List (κ × α),
      btree_entries_same l1 l2 = true ↔
        (l1.length = l2.length ∧
          ∀ p ∈ l1.zip l2, (p.1.1 == p.2.1) = true ∧ is_not_same p.1.2 p.2.2 = false)
  | [], [] => by simp [btree_entries_same]
  | [], (k, v) :: t => by simp [btree_entries_same]
  | (k, v) :: t, [] => by simp [btree_entries_same]
  | (k1, v1) :: t1, (k2, v2) :: t2 => by
    rw [btree_entries_same]
    cases hk : (k1 == k2) with
    | false =>
      simp only [hk, Bool.false_eq_true, if_false, false_iff]
      rintro ⟨-, hall⟩
      have := (hall ((k1, v1), (k2, v2)) (by simp)).1
      rw [hk] at this
      exact Bool.noConfusion this
    | true =>
      cases hv : (is_not_same v1 v2) with
      | true =>
        simp only [hk, if_true, hv, Bool.false_eq_true, if_false, false_iff]
        rintro ⟨-, hall⟩
        have := (hall ((k1, v1), (k2, v2)) (by simp)).2
        rw [hv] at this
        exact Bool.noConfusion this
      | false =>
        simp only [hk, if_true, hv, Bool.false_eq_true, if_false]
        rw [btree_entries_same_iff t1 t2]
        simp [hk, hv, List.length_cons]

theorem hashmap_is_same_iff {κ : Type u} {α : Type v} [BEq κ] [IsSame κ] [IsSame α]
    (m1 m2 : HashMapM κ α) :
    hashmap_is_same m1 m2 = true ↔
      (m1.entries.length = m2.entries.length ∧
        ∀ kv ∈ m1.entries,
          ∃ v', List.lookup kv.1 m2.entries = some v' ∧ is_not_same kv.2 v' = false) := by
  rw [hashmap_is_same]
  by_cases hl : m1.entries.length = m2.entries.length
  · rw [if_neg (by simp [hl])]
    simp only [List.all_eq_true, hl, true_and]
    refine forall_congr' fun kv => forall_congr' fun hm => ?_
    cases hkv : List.lookup kv.1 m2.entries with
    | none => simp [hkv]
    | some v =>
      cases hv : is_not_same kv.2 v with
      | false => simp [hkv, hv]
      | true => simp [hkv, hv]
  · rw [if_pos (by simpa [bne_iff_ne] using hl)]
    simp [hl]

/-- C5: evaluation of the `Vec` comparison at a failing input.  The claim
says two `Vec<T>` of different lengths are never same, but for the zero-sized
element type `()` every `Vec<()>` has the same `as_ptr` value (the dangling
well-aligned pointer, address `align_of::<()>() = 1`: such a `Vec` never
allocates), so `vec![(), (), ()]` and `vec![(), ()]` take the buffer-address
fast path of lib.rs:65 and compare same despite lengths 3 ≠ 2. -/
theorem c5_vec_zst_fast_path_eval :
    vec_is_same (VecM.mk 1 [(), (), ()]) (VecM.mk 1 [(), ()]) = true
    ∧ (VecM.mk 1 [(), (), ()]).data.length ≠ (VecM.mk 1 [(), ()]).data.length := by
  exact ⟨rfl, by decide⟩

/-- C6: `is_same` on ordered mappings is true iff the sizes are equal and,
walking both ascending iteration sequences in lockstep, every positional pair
has `==`-equal keys (the key type's own equality, not `is_same` — witnessed by
the `KeyTok` conjunct, where `==`-equal but not-`is_same` keys still pair) and
values the protocol does not report not-same; at instances keeping the
trait's default negation (all of them) the value condition is exactly
`is_same = true`. -/
theorem c6_btreemap_characterisation :
    (∀ (κ : Type u) (α : Type v) [BEq κ] [IsSame κ] [IsSame α]
      (m1 m2 : BTreeMapM κ α),
      btreemap_is_same m1 m2 = true ↔
        (m1.entries.length = m2.entries.length ∧
          ∀ p ∈ m1.entries.zip m2.entries,
            (p.1.1 == p.2.1) = true ∧ is_not_same p.1.2 p.2.2 = false))
    ∧ (∀ m1 m2 : BTreeMapM U8 F32,
      btreemap_is_same m1 m2 = true ↔
        (m1.entries.length = m2.entries.length ∧
          ∀ p ∈ m1.entries.zip m2.entries,
            (p.1.1 == p.2.1) = true ∧ is_same p.1.2 p.2.2 = true))
    ∧ ((KeyTok.mk 1 10 == KeyTok.mk 1 20) = true
        ∧ is_same (KeyTok.mk 1 10) (KeyTok.mk 1 20) = false
        ∧ btreemap_is_same ⟨[(KeyTok.mk 1 10, f32PosZero)]⟩
            ⟨[(KeyTok.mk 1 20, f32PosZero)]⟩ = true) := by
  refine ⟨fun κ α _ _ _ m1 m2 => btree_entries_same_iff m1.entries m2.entries,
    fun m1 m2 => ?_, by decide, by decide, by decide⟩
  show btree_entries_same m1.entries m2.entries = true ↔ _
  rw [btree_entries_same_iff]
  simp only [f32_not_same_false_iff]

/-- C7: `is_same` on hash mappings is true iff the sizes are equal and every
entry of the first map has an `==`-equal key in the second whose value the
protocol does not report not-same (key absence or a not-same value refutes
it); at instances keeping the trait's default negation the value condition is
exactly `is_same = true`.  The size comparison is the definition's first
step, mirroring lib.rs:135-137. -/
theorem c7_hashmap_characterisation :
    (∀ (κ : Type u) (α : Type v) [BEq κ] [IsSame κ] [IsSame α]
      (m1 m2 : HashMapM κ α),
      hashmap_is_same m1 m2 = true ↔
        (m1.entries.length = m2.entries.length ∧
          ∀ kv ∈ m1.entries,
            ∃ v', List.lookup kv.1 m2.entries = some v' ∧ is_not_same kv.2 v' = false))
    ∧ (∀ m1 m2 : HashMapM U8 F32,
      hashmap_is_same m1 m2 = true ↔
        (m1.entries.length = m2.entries.length ∧
          ∀ kv ∈ m1.entries,
            ∃ v', List.lookup kv.1 m2.entries = some v' ∧ is_same kv.2 v' = true)) := by
  refine ⟨fun κ α _ _ _ m1 m2 => hashmap_is_same_iff m1 m2, fun m1 m2 => ?_⟩
  rw [hashmap_is_same_iff]
  simp only [f32_not_same_false_iff]

theorem eval_and_chain_spec (f : FieldRefM → Bool) :
    ∀ (r : FieldRefM) (t : List FieldRefM),
      eval_and_chain f r t =
        (((r :: t).map f).all id, evaluated_count ((r :: t).map f))
  | r, [] => by cases hf : f r <;> simp [eval_and_chain, evaluated_count, hf]
  | r, r2 :: t => by
    cases hf : f r with
    | false => simp [eval_and_chain, evaluated_count, hf]
    | true =>
      simp [eval_and_chain, hf, evaluated_count, eval_and_chain_spec f r2 t]

theorem evaluated_count_stops_at_first_false :
    ∀ (k : Nat) (post : List Bool),
      evaluated_count (List.replicate k true ++ false :: post) = k + 1
  | 0, post => by simp [evaluated_count]
  | k + 1, post => by
    simp [List.replicate_succ, evaluated_count,
      evaluated_count_stops_at_first_false k post]

theorem array_cmp_count_zero {α : Type u} [IsSame α] (a b : ArrayN α 0) :
    array_cmp_count a.val b.val = (true, 0) := by
  obtain ⟨la, hla⟩ := a
  obtain ⟨lb, hlb⟩ := b
  cases List.length_eq_zero.mp hla
  cases List.length_eq_zero.mp hlb
  rfl

/-- A carrier with an `is_same` implementation that rejects every pair,
instantiating the generic array implementation adversarially. -/
structure NeverSame where
  tok : Nat

instance : IsSame NeverSame where
  is_same := fun _ _ => false

/-- C8 (amended): on a record with at least one field, the derive emits the
`&&`-chain of per-field `is_same` calls in declared field order (by name for
named fields, by index for positional fields); a nonempty chain evaluates to
the conjunction of the per-field results and evaluates exactly the fields up
to and including the first not-same one (fields after it are not evaluated);
on a `Fields::Unit` record it emits the literal `true`, which evaluates no
field at all.  (A brace/paren record with zero fields is excluded: there the
emitted chain is empty, see the counterexample.) -/
theorem c8_derive_fieldwise_conjunction :
    (∀ (s : String) (ns : List String),
      derive_is_same ⟨s, .structData (.named ns)⟩ =
        .ok (.andChain (ns.map FieldRefM.byName)))
    ∧ (∀ (s : String) (c : Nat),
      derive_is_same ⟨s, .structData (.unnamed c)⟩ =
        .ok (.andChain ((List.range c).map FieldRefM.byIndex)))
    ∧ (∀ s : String, derive_is_same ⟨s, .structData .unit⟩ = .ok .litTrue)
    ∧ (∀ (f : FieldRefM → Bool) (r : FieldRefM) (t : List FieldRefM),
      run_gen_body f (.andChain (r :: t)) =
        some (((r :: t).map f).all id, evaluated_count ((r :: t).map f)))
    ∧ (∀ f : FieldRefM → Bool, run_gen_body f .litTrue = some (true, 0))
    ∧ (∀ (k : Nat) (post : List Bool),
      evaluated_count (List.replicate k true ++ false :: post) = k + 1) :=
  ⟨fun _ _ => rfl, fun _ _ => rfl, fun _ => rfl,
    fun f r t => congrArg some (eval_and_chain_spec f r t),
    fun _ => rfl, evaluated_count_stops_at_first_false⟩

/-- C8 counterexample: on the zero-field brace record `struct Empty {}`
(`Fields::Named` with an empty field list) the derive succeeds but emits the
empty `&&` repetition — an empty expression, which is not the vacuously-true
conjunction the claim promises: an `fn is_same(...) -> bool` whose body is
empty does not compile, so the generated item admits no evaluation at all,
unlike the `true` emitted for a unit record. -/
theorem c8_zero_field_record_counterexample :
    derive_is_same ⟨"Empty", .structData (.named [])⟩ = .ok (.andChain [])
    ∧ run_gen_body (fun _ => true) (.andChain []) = none
    ∧ run_gen_body (fun _ => true) .litTrue = some (true, 0) :=
  ⟨rfl, rfl, rfl⟩

/-- C9 (amended): invoked on a non-struct shape (enum or union), the derive
panics, so the build fails and no comparison is produced — but the diagnostic
is the fixed text `derive(IsSame) can only be used with struct items`, which
does not name the offending type. -/
theorem c9_derive_rejects_non_struct :
    (∀ s : String, derive_is_same ⟨s, .enumData⟩ = .compileError derivePanicMessage)
    ∧ (∀ s : String, derive_is_same ⟨s, .unionData⟩ = .compileError derivePanicMessage)
    ∧ (∀ (s : String) (d : DataM) (b : GenBodyM),
        derive_is_same ⟨s, d⟩ = .ok b → ∃ fields, d = .structData fields) := by
  refine ⟨fun s => rfl, fun s => rfl, fun s d b h => ?_⟩
  cases d with
  | structData fields => exact ⟨fields, rfl⟩
  | enumData => exact absurd h (by simp [derive_is_same])
  | unionData => exact absurd h (by simp [derive_is_same])

/-- C9 counterexample: two differently-named non-struct types receive the
very same diagnostic, and the diagnostic for the enum `Foo` does not contain
`Foo` — the message cannot be identifying the offending type. -/
theorem c9_constant_message_counterexample :
    derive_is_same ⟨"Foo", .enumData⟩ = derive_is_same ⟨"Bar", .enumData⟩
    ∧ derive_is_same ⟨"Foo", .enumData⟩ = .compileError derivePanicMessage
    ∧ ¬ ("Foo".toList <:+: derivePanicMessage.toList) := by
  refine ⟨rfl, rfl, by decide⟩

/-- C10: on the zero-length array type `[T; 0]` the generated loop body runs
zero times, so `is_same` is true for every element type and every pair of
values with no element comparison performed — even for an element type whose
own `is_same` rejects every pair. -/
theorem c10_zero_length_array_always_same :
    (∀ (α : Type u) [IsSame α] (a b : ArrayN α 0),
      array_is_same a b = true ∧ array_cmp_count a.val b.val = (true, 0))
    ∧ (∀ x y : NeverSame, is_same x y = false)
    ∧ (∀ a b : ArrayN NeverSame 0, is_same a b = true) := by
  refine ⟨fun α _ a b => ⟨?_, array_cmp_count_zero a b⟩, fun x y => rfl,
    fun a b => ?_⟩
  · show (array_cmp_count a.val b.val).1 = true
    rw [array_cmp_count_zero a b]
  · show (array_cmp_count a.val b.val).1 = true
    rw [array_cmp_count_zero a b]
